import Mathlib

/-!
Verification of the filemon notification-event engine
(src/main/src/filemon.c and the variant in src/unnamed/part_000).

The embedding translates the C source directly:

* inotify mask bits are `Nat` constants with the values from
  `<sys/inotify.h>`; a C test `i->mask & FLAG` becomes `maskHas`.
* `struct inotify_event` becomes `InotifyEvent`; the C length field
  `i->len` is represented by `name : Option String` (`none` when
  `len == 0`, matching the code's `if (i->len)` guards).
* `show_inotify_event` both classifies the event and, in C, forks and
  waits for the child.  The classification-and-command-construction part
  is embedded as a pure function returning a `Decision`; the
  `waitpid` loop is embedded separately as `waitLoop` over a trace of
  `waitpid` results; the `printf`/`syslog` calls are logging and carry
  no dispatch-relevant state.
* the blocking `read` loop of `monitor` is embedded as `readLoop` over a
  trace of read results (`none` models the fatal `exit(EXIT_FAILURE)`
  paths, `some batches` models the batches processed so far on a trace
  that has not yet hit a fatal result).
* the watch registry (`wd_names` array and the linear scan that recovers
  the directory for an event's `wd`) is embedded as `wdNames`,
  `findDirPosAux` and `lookupDir`, with the handles returned by
  `inotify_add_watch` abstracted as a function `h : Nat → Int` from
  registration index to watch descriptor.
* the setup control flow of `main` and the head of `monitor` is embedded
  as `mainSetup`/`monitorSetup` over a `SetupOracle` recording which of
  the fallible externals (`realloc`, `malloc`/`calloc`, `realpath`,
  `inotify_init`, `inotify_add_watch`) succeed.
-/

namespace Filemon

/-! ### inotify mask bits (values from sys/inotify.h) -/

def IN_ACCESS : Nat := 0x00000001

def IN_MODIFY : Nat := 0x00000002

def IN_ATTRIB : Nat := 0x00000004

def IN_CLOSE_WRITE : Nat := 0x00000008

def IN_CLOSE_NOWRITE : Nat := 0x00000010

def IN_OPEN : Nat := 0x00000020

def IN_MOVED_FROM : Nat := 0x00000040

def IN_MOVED_TO : Nat := 0x00000080

def IN_CREATE : Nat := 0x00000100

def IN_DELETE : Nat := 0x00000200

def IN_DELETE_SELF : Nat := 0x00000400

def IN_MOVE_SELF : Nat := 0x00000800

def IN_UNMOUNT : Nat := 0x00002000

def IN_Q_OVERFLOW : Nat := 0x00004000

def IN_IGNORED : Nat := 0x00008000

def IN_ISDIR : Nat := 0x40000000

/-- Linux limits.h: PATH_MAX. -/
def PATH_MAX : Nat := 4096

/-- Linux limits.h: NAME_MAX. -/
def NAME_MAX : Nat := 255

/-- The constant `MAX_COMMAND_LEN`, defined as `PATH_MAX - NAME_MAX - 1`
in src/main/src/filemon.c. -/
def MAX_COMMAND_LEN : Nat := PATH_MAX - NAME_MAX - 1

/-- The constant `MAX_COMMAND_LEN`, defined as `PATH_MAX * 2` in the
syslog variant of src/unnamed/part_000. -/
def MAX_COMMAND_LEN_v2 : Nat := PATH_MAX * 2

/-- C test `mask & flag` used as a truth value. -/
def maskHas (mask flag : Nat) : Bool := (mask &&& flag) != 0

/-- One `struct inotify_event`.  `name = none` embeds `i->len == 0`
(event about the watched path itself); `name = some n` embeds a
NUL-terminated filename of `i->len > 0` bytes. -/
structure InotifyEvent where
  wd : Int
  mask : Nat
  cookie : Nat
  name : Option String
deriving DecidableEq

/-- Outcome of the classification part of `show_inotify_event`: either
the event is ignored, or a command line is built and a child is spawned
to run it. -/
inductive Decision where
  | ignore
  | dispatch (cmd : String)
deriving DecidableEq

def isDispatch : Decision → Bool
  | .ignore => false
  | .dispatch _ => true

/-- Byte `i` of the C string holding `s`; index `s.length` is the NUL
terminator (the C expression `s[strlen(s)]`). -/
def cstrGet (s : String) (i : Nat) : Char := s.data.getD i (Char.ofNat 0)

/-- Command construction in `show_inotify_event`
(src/main/src/filemon.c lines 101-119, identically
src/unnamed/part_000 lines 426-444):

  cmd[0] = 0; strcat(cmd, command); strcat(cmd, space);
  strcat(cmd, dir_name);
  if (dir_name[strlen(dir_name)] != a slash) strcat(cmd, slash);
  strncat(cmd, i->name, i->len);

Note the guard reads `dir_name[strlen(dir_name)]`, which is the NUL
terminator, not the last character of `dir_name`. -/
def buildCmd (command dir_name fname : String) : String :=
  let cmd := "" ++ command ++ " " ++ dir_name
  let cmd := if cstrGet dir_name dir_name.length != '/' then cmd ++ "/" else cmd
  cmd ++ fname

/-- Dispatch decision of `show_inotify_event` in src/main/src/filemon.c
(lines 97-121): dispatch when `(mask & IN_CLOSE_WRITE) ||
(mask & IN_CLOSE_NOWRITE)` and `i->len > 0`. -/
def show_inotify_event (i : InotifyEvent) (dir_name command : String) : Decision :=
  if maskHas i.mask IN_CLOSE_WRITE || maskHas i.mask IN_CLOSE_NOWRITE then
    match i.name with
    | some n => .dispatch (buildCmd command dir_name n)
    | none => .ignore
  else .ignore

/-- Dispatch decision of `show_inotify_event` in the syslog variant of
src/unnamed/part_000 (lines 422-446): dispatch when
`(mask & IN_CLOSE_WRITE)` (the `IN_CLOSE_NOWRITE` disjunct is
commented out) and `i->len > 0`.  Command construction is identical. -/
def show_inotify_event_v2 (i : InotifyEvent) (dir_name command : String) : Decision :=
  if maskHas i.mask IN_CLOSE_WRITE then
    match i.name with
    | some n => .dispatch (buildCmd command dir_name n)
    | none => .ignore
  else .ignore

/-! ### The waitpid loop of show_inotify_event -/

/-- Child-termination status as classified by the C macros:
`WIFEXITED`, `WIFSIGNALED`, or neither (the case the do-while guard
`!WIFEXITED(wstatus) && !WIFSIGNALED(wstatus)` loops on). -/
inductive WaitStatus where
  | exited (code : Nat)
  | signaled (sig : Nat)
  | neither
deriving DecidableEq

/-- One return of `waitpid`: `-1` with the given `errno`, or a status. -/
inductive WaitpidResult where
  | err (errno : Nat)
  | ok (st : WaitStatus)
deriving DecidableEq

/-- Outcome of the wait loop: the parent called `exit(EXIT_FAILURE)`
(killing the whole program), or the loop finished reporting the child's
termination, or the supplied trace ran out while the loop would still be
waiting. -/
inductive WaitOutcome where
  | fatalExit
  | reported (st : WaitStatus)
  | stillWaiting
deriving DecidableEq

/-- errno value of an interrupted system call. -/
def EINTR : Nat := 4

/-- The do-while loop after the fork in `show_inotify_event`
(src/main/src/filemon.c lines 147-162, identically
src/unnamed/part_000 lines 472-487), run on a trace of `waitpid`
results:

  do { ws = waitpid(child_pid, and wstatus, 0);
       if (ws == -1) { perror; exit(EXIT_FAILURE); }
       if (WIFEXITED(wstatus)) log exited;
       else if (WIFSIGNALED(wstatus)) log signaled;
  } while (!WIFEXITED(wstatus) && !WIFSIGNALED(wstatus));

A `-1` return makes the parent exit regardless of `errno`; there is no
interruption-retry branch. -/
def waitLoop : List WaitpidResult → WaitOutcome
  | [] => .stillWaiting
  | .err _ :: _ => .fatalExit
  | .ok st :: rest =>
    match st with
    | .exited c => .reported (.exited c)
    | .signaled s => .reported (.signaled s)
    | .neither => waitLoop rest

/-! ### The read loop of monitor -/

/-- One return of the blocking `read` on the inotify descriptor: a
decoded batch of events (`num_bytes_read > 0`), end of file
(`num_bytes_read == 0`), or `-1` with the given `errno`. -/
inductive ReadResult where
  | ok (events : List InotifyEvent)
  | eof
  | err (errno : Nat)
deriving DecidableEq

/-- The `for (;;)` read loop of `monitor`
(src/main/src/filemon.c lines 240-256, identically
src/unnamed/part_000 lines 546-562), run on a trace of read results:
a `0` return or a `-1` return with `errno != EINTR` is
`exit(EXIT_FAILURE)` (modelled as `none`); a `-1` return with
`errno == EINTR` is logged and the loop `continue`s; a positive return
has its batch of events processed and the loop reads again.
`some batches` is the list of batches processed, in order, on a trace
that has not hit a fatal result (the loop itself never terminates). -/
def readLoop : List ReadResult → Option (List (List InotifyEvent))
  | [] => some []
  | .eof :: _ => none
  | .err e :: rest => if e == EINTR then readLoop rest else none
  | .ok evs :: rest =>
    match readLoop rest with
    | some bs => some (evs :: bs)
    | none => none

/-! ### The watch registry of monitor -/

/-- The `wd_names` array after the registration loop of `monitor`
(src/main/src/filemon.c lines 217-235): slot `j` holds the watch
descriptor returned by `inotify_add_watch` for `directories[j]`,
abstracted as `h j`. -/
def wdNames (h : Nat → Int) (n : Nat) : List Int := (List.range n).map h

/-- The scan of `wd_names` in `monitor` (src/main/src/filemon.c lines
269-275): linear search from index 0, first match wins. -/
def findDirPosAux (wds : List Int) (wd : Int) (i : Nat) : Option Nat :=
  match wds with
  | [] => none
  | w :: rest => if w == wd then some i else findDirPosAux rest wd (i + 1)

/-- Recovery of `dir_pos` plus `directories[dir_pos]`
(src/main/src/filemon.c lines 269-282); `none` embeds the fatal
`cannot find directory name` exit. -/
def lookupDir (dirs : List String) (h : Nat → Int) (wd : Int) : Option String :=
  match findDirPosAux (wdNames h dirs.length) wd 0 with
  | some pos => dirs.get? pos
  | none => none

/-- Resolution of one batch of events to their directories, in arrival
order (the per-event head of the inner loop of `monitor`). -/
def resolveBatch (dirs : List String) (h : Nat → Int) (evs : List InotifyEvent) :
    List (Option String) :=
  evs.map (fun e => lookupDir dirs h e.wd)

/-! ### Setup control flow of main and monitor -/

/-- Success/failure of the fallible externals called during setup in
src/main/src/filemon.c: `realloc` of the dirs array, `malloc` of
`abs_dirs`, `calloc` of each per-path buffer, `realpath`, `malloc` of
`wd_names`, `inotify_init`, and `inotify_add_watch`. -/
structure SetupOracle where
  reallocOk : Bool
  absDirsAllocOk : Bool
  pathAllocOk : Bool
  realpath : String → Option String
  wdNamesAllocOk : Bool
  inotifyInitOk : Bool
  addWatch : String → Option Int

/-- How the process ended setup: `exit code`, or it reached the read
loop. -/
inductive ExitOutcome where
  | exit (code : Nat)
  | entersLoop
deriving DecidableEq

/-- The head of `monitor` (src/main/src/filemon.c lines 196-237):
`malloc` of `wd_names` (failure is `exit(EXIT_FAILURE)`), then
`if (directories_len == 0) exit(0)`, then `inotify_init` (failure is
`exit(EXIT_FAILURE)`), then one `inotify_add_watch` per directory (any
failure is `exit(EXIT_FAILURE)`), then the read loop is entered. -/
def monitorSetup (o : SetupOracle) (directories : List String) : ExitOutcome :=
  if !o.wdNamesAllocOk then .exit 1
  else if directories.length == 0 then .exit 0
  else if !o.inotifyInitOk then .exit 1
  else if directories.all (fun d => (o.addWatch d).isSome) then .entersLoop
  else .exit 1

/-- The per-path `calloc` plus `realpath` loop of `main`
(src/main/src/filemon.c lines 360-374); `none` embeds
`exit(EXIT_FAILURE)`. -/
def resolveAll (o : SetupOracle) : List String → Option (List String)
  | [] => some []
  | d :: rest =>
    if !o.pathAllocOk then none
    else
      match o.realpath d with
      | none => none
      | some a =>
        match resolveAll o rest with
        | none => none
        | some rest2 => some (a :: rest2)

/-- Setup control flow of `main` in src/main/src/filemon.c (lines
294-382): option parsing (each `-d` may grow the array through
`realloc`, whose failure is `exit(EXIT_FAILURE)`), then
`if (command == NULL || strlen(command) > MAX_COMMAND_LEN)
exit(EXIT_FAILURE)`, then, when at least one `-d` was given, the
`abs_dirs` allocation and per-path resolution, then `monitor`; with no
`-d` at all, `main` skips `monitor` and returns `EXIT_SUCCESS` (0). -/
def mainSetup (o : SetupOracle) (optDirs : List String) (optCommand : Option String) :
    ExitOutcome :=
  if optDirs.length > 0 && !o.reallocOk then .exit 1
  else
    match optCommand with
    | none => .exit 1
    | some c =>
      if c.length > MAX_COMMAND_LEN then .exit 1
      else if optDirs.length > 0 then
        if !o.absDirsAllocOk then .exit 1
        else
          match resolveAll o optDirs with
          | none => .exit 1
          | some absDirs => monitorSetup o absDirs
      else .exit 0

/-! ### Concrete inputs used in counterexamples and witnesses -/

/-- An oracle on which every fallible external succeeds and `realpath`
is the identity. -/
def okOracle : SetupOracle :=
  ⟨true, true, true, fun s => some s, true, true, fun _ => some 1⟩

/-- A command template of exactly `MAX_COMMAND_LEN` (3840) characters:
accepted by the startup length check. -/
def longTemplate : String := String.mk (List.replicate 3840 'x')

/-- A command template of `MAX_COMMAND_LEN + 1` characters: rejected by
the startup length check. -/
def oversizedTemplate : String := String.mk (List.replicate 3841 'x')

/-- A resolved directory path of 100 characters. -/
def dir100 : String := String.mk ('/' :: List.replicate 99 'd')

/-- A file name of 50 characters. -/
def name50 : String := String.mk (List.replicate 50 'n')

/-! ### Helper lemmas -/

theorem land_lor_right (a b c : Nat) :
    (a ||| b) &&& c = ((a &&& c) ||| (b &&& c)) := by
  apply Nat.eq_of_testBit_eq
  intro i
  simp only [Nat.testBit_land, Nat.testBit_lor]
  cases a.testBit i <;> cases b.testBit i <;> cases c.testBit i <;> rfl

theorem maskHas_lor_of_land_zero (m g f : Nat) (h0 : g &&& f = 0) :
    maskHas (m ||| g) f = maskHas m f := by
  unfold maskHas
  rw [show (m ||| g) &&& f = ((m &&& f) ||| (g &&& f)) from land_lor_right m g f,
    h0, Nat.or_zero]

theorem resolveAll_length (o : SetupOracle) (ds : List String) :
    ∀ l, resolveAll o ds = some l → l.length = ds.length := by
  induction ds with
  | nil =>
    intro l hl
    simp only [resolveAll, Option.some.injEq] at hl
    simp [← hl]
  | cons d rest ih =>
    intro l hl
    unfold resolveAll at hl
    cases hA : o.pathAllocOk with
    | false => rw [hA] at hl; simp at hl
    | true =>
      rw [hA] at hl
      simp only [Bool.not_true, Bool.false_eq_true, if_false] at hl
      cases hr : o.realpath d with
      | none => rw [hr] at hl; simp at hl
      | some a =>
        rw [hr] at hl
        cases hrest : resolveAll o rest with
        | none => rw [hrest] at hl; simp at hl
        | some l2 =>
          rw [hrest] at hl
          simp only [Option.some.injEq] at hl
          subst hl
          simp [ih l2 hrest]

theorem resolveAll_eq_some (o : SetupOracle) (ds : List String)
    (hA : o.pathAllocOk = true)
    (hr : ∀ d ∈ ds, (o.realpath d).isSome = true) :
    ∃ l, resolveAll o ds = some l ∧ l.length = ds.length := by
  induction ds with
  | nil => exact ⟨[], rfl, rfl⟩
  | cons d rest ih =>
    obtain ⟨a, ha⟩ := Option.isSome_iff_exists.mp (hr d (by simp))
    obtain ⟨l, h1, h2⟩ := ih (fun x hx => hr x (by simp [hx]))
    exact ⟨a :: l, by simp [resolveAll, hA, ha, h1], by simp [h2]⟩

theorem resolveAll_none_of_realpath_none (o : SetupOracle) (ds : List String)
    (d : String) (hd : d ∈ ds) (hr : o.realpath d = none) :
    resolveAll o ds = none := by
  induction ds with
  | nil => cases hd
  | cons x rest ih =>
    unfold resolveAll
    cases hA : o.pathAllocOk with
    | false => simp
    | true =>
      simp only [Bool.not_true, Bool.false_eq_true, if_false]
      rcases List.mem_cons.mp hd with h | h
      · subst h; rw [hr]
      · cases hx : o.realpath x with
        | none => rfl
        | some a => rw [ih h]

theorem resolveAll_none_of_pathAlloc_false (o : SetupOracle) (ds : List String)
    (hds : ds ≠ []) (hpa : o.pathAllocOk = false) : resolveAll o ds = none := by
  obtain ⟨d, rest, rfl⟩ := List.exists_cons_of_ne_nil hds
  simp [resolveAll, hpa]

theorem mainSetup_exit_or_monitor (o : SetupOracle) (ds : List String) (c : String)
    (hds : ds ≠ []) :
    mainSetup o ds (some c) = .exit 1 ∨
    ∃ l, resolveAll o ds = some l ∧ l.length = ds.length ∧
      mainSetup o ds (some c) = monitorSetup o l := by
  have hpos : 0 < ds.length := List.length_pos.mpr hds
  cases hre : o.reallocOk with
  | false => exact Or.inl (by simp [mainSetup, hpos, hre])
  | true =>
    by_cases hc : MAX_COMMAND_LEN < c.length
    · exact Or.inl (by simp [mainSetup, hc])
    · cases habs : o.absDirsAllocOk with
      | false => exact Or.inl (by simp [mainSetup, hpos, hre, hc, habs])
      | true =>
        cases hres : resolveAll o ds with
        | none => exact Or.inl (by simp [mainSetup, hpos, hre, hc, habs, hres])
        | some l =>
          exact Or.inr ⟨l, rfl, resolveAll_length o ds l hres,
            by simp [mainSetup, hpos, hre, hc, habs, hres]⟩

theorem monitorSetup_exit_one_of_wdNames_fail (o : SetupOracle) (l : List String)
    (hwd : o.wdNamesAllocOk = false) : monitorSetup o l = .exit 1 := by
  simp [monitorSetup, hwd]

theorem monitorSetup_exit_one_of_inotify_fail (o : SetupOracle) (l : List String)
    (hl : l ≠ []) (hino : o.inotifyInitOk = false) : monitorSetup o l = .exit 1 := by
  cases hwd : o.wdNamesAllocOk with
  | false => simp [monitorSetup, hwd]
  | true => simp [monitorSetup, hwd, hino, List.length_eq_zero, hl]

theorem monitorSetup_exit_one_of_addWatch_fail (o : SetupOracle) (l : List String)
    (hl : l ≠ []) (haw : ∀ p, o.addWatch p = none) : monitorSetup o l = .exit 1 := by
  obtain ⟨d, rest, rfl⟩ := List.exists_cons_of_ne_nil hl
  cases hwd : o.wdNamesAllocOk with
  | false => simp [monitorSetup, hwd]
  | true =>
    cases hino : o.inotifyInitOk with
    | false => simp [monitorSetup, hwd, hino]
    | true => simp [monitorSetup, hwd, hino, haw]

theorem monitorSetup_entersLoop (o : SetupOracle) (l : List String)
    (hl : l ≠ []) (hwd : o.wdNamesAllocOk = true) (hino : o.inotifyInitOk = true)
    (haw : ∀ p, (o.addWatch p).isSome = true) : monitorSetup o l = .entersLoop := by
  simp [monitorSetup, hwd, hino, List.length_eq_zero, hl, List.all_eq_true, haw]

theorem findDirPosAux_mem (l : List Int) (wd : Int) :
    ∀ start : Nat, wd ∈ l →
      ∃ j, findDirPosAux l wd start = some (start + j) ∧
        j < l.length ∧ l.get? j = some wd := by
  induction l with
  | nil => intro start h; cases h
  | cons w rest ih =>
    intro start hmem
    by_cases hw : (w == wd) = true
    · refine ⟨0, ?_, by simp, ?_⟩
      · simp [findDirPosAux, hw]
      · simp [show w = wd from by simpa using hw]
    · have hmem2 : wd ∈ rest := by
        rcases List.mem_cons.mp hmem with h | h
        · exact absurd (by simp [h]) hw
        · exact h
      obtain ⟨j, h1, h2, h3⟩ := ih (start + 1) hmem2
      refine ⟨j + 1, ?_, by simpa using Nat.succ_lt_succ h2, by simpa using h3⟩
      rw [show findDirPosAux (w :: rest) wd start = findDirPosAux rest wd (start + 1) from by
        simp [findDirPosAux, hw], h1]
      congr 1
      omega

/-! ### Claim theorems -/

/-- C1 (amended): for every event, the classifier of
src/main/src/filemon.c dispatches exactly when the name is present and
the mask includes at least one of `IN_CLOSE_WRITE` or
`IN_CLOSE_NOWRITE`; the part_000 variant dispatches exactly when the
name is present and the mask includes `IN_CLOSE_WRITE`.  `IN_MOVED_TO`
never triggers a dispatch in either variant. -/
theorem C1_dispatch_iff_close_events (i : InotifyEvent) (d c : String) :
    isDispatch (show_inotify_event i d c)
      = (i.name.isSome && (maskHas i.mask IN_CLOSE_WRITE || maskHas i.mask IN_CLOSE_NOWRITE)) ∧
    isDispatch (show_inotify_event_v2 i d c)
      = (i.name.isSome && maskHas i.mask IN_CLOSE_WRITE) := by
  constructor
  · unfold show_inotify_event
    cases hn : i.name <;> cases hw : maskHas i.mask IN_CLOSE_WRITE <;>
      cases hnw : maskHas i.mask IN_CLOSE_NOWRITE <;> simp [isDispatch]
  · unfold show_inotify_event_v2
    cases hn : i.name <;> cases hw : maskHas i.mask IN_CLOSE_WRITE <;>
      simp [isDispatch]

/-- C1 counterexample: an event whose mask is exactly `IN_MOVED_TO`,
with a present name not starting with a dot, is ignored by both
variants, while an `IN_CLOSE_NOWRITE`-only event (a kind outside the
claimed set) is dispatched by the src/main variant. -/
theorem C1_moved_to_ignored_cex :
    maskHas IN_MOVED_TO IN_MOVED_TO = true ∧
    show_inotify_event ⟨1, IN_MOVED_TO, 0, some "a.txt"⟩ "/tmp" "ls -l" = .ignore ∧
    show_inotify_event_v2 ⟨1, IN_MOVED_TO, 0, some "a.txt"⟩ "/tmp" "ls -l" = .ignore ∧
    show_inotify_event ⟨1, IN_CLOSE_NOWRITE, 0, some "a.txt"⟩ "/tmp" "ls -l"
      = .dispatch "ls -l /tmp/a.txt" := by
  refine ⟨by decide, by decide, by decide, by decide⟩

/-- C3 (amended): the classifier never inspects the name's content;
an event whose name starts with a dot is dispatched exactly like any
other event whenever the mask qualifies and the name is present. -/
theorem C3_dot_names_not_filtered (i : InotifyEvent) (d c n : String)
    (hn : i.name = some n) (hdot : cstrGet n 0 = '.')
    (hw : maskHas i.mask IN_CLOSE_WRITE = true) :
    show_inotify_event i d c = .dispatch (buildCmd c d n) ∧
    show_inotify_event_v2 i d c = .dispatch (buildCmd c d n) := by
  constructor <;> simp [show_inotify_event, show_inotify_event_v2, hn, hw]

/-- C3 witness: the dot-named event `.tmp` with mask `IN_CLOSE_WRITE`
is dispatched by both variants. -/
theorem C3_dot_names_not_filtered_witness :
    show_inotify_event ⟨1, IN_CLOSE_WRITE, 0, some ".tmp"⟩ "/tmp" "ls -l"
      = .dispatch (buildCmd "ls -l" "/tmp" ".tmp") ∧
    show_inotify_event_v2 ⟨1, IN_CLOSE_WRITE, 0, some ".tmp"⟩ "/tmp" "ls -l"
      = .dispatch (buildCmd "ls -l" "/tmp" ".tmp") :=
  C3_dot_names_not_filtered ⟨1, IN_CLOSE_WRITE, 0, some ".tmp"⟩ "/tmp" "ls -l" ".tmp"
    rfl (by decide) (by decide)

/-- C3 counterexample: the event with name `.tmp` (a dot name) and mask
`IN_CLOSE_WRITE` is dispatched with command `ls -l /tmp/.tmp` by both
variants, so a dot-named event is not ignored. -/
theorem C3_dot_name_dispatched_cex :
    cstrGet ".tmp" 0 = '.' ∧
    show_inotify_event ⟨1, IN_CLOSE_WRITE, 0, some ".tmp"⟩ "/tmp" "ls -l"
      = .dispatch "ls -l /tmp/.tmp" ∧
    show_inotify_event_v2 ⟨1, IN_CLOSE_WRITE, 0, some ".tmp"⟩ "/tmp" "ls -l"
      = .dispatch "ls -l /tmp/.tmp" := by
  refine ⟨by decide, by decide, by decide⟩

/-- C4: the separator guard reads `dir_name[strlen(dir_name)]` — the
NUL terminator, never a slash — so a slash is appended unconditionally:
a `resolved_path` that already ends with a slash (for example `/`, which
`realpath` returns for the root directory) gets a duplicated separator.
When `resolved_path` does not end with a slash, exactly one separator is
inserted, as the claim states. -/
theorem C4_separator_always_appended :
    cstrGet "/tmp/" ("/tmp/".length) = Char.ofNat 0 ∧
    show_inotify_event ⟨1, IN_CLOSE_WRITE, 0, some "a.txt"⟩ "/tmp/" "ls -l"
      = .dispatch "ls -l /tmp//a.txt" ∧
    show_inotify_event ⟨1, IN_CLOSE_WRITE, 0, some "a.txt"⟩ "/" "ls -l"
      = .dispatch "ls -l //a.txt" ∧
    show_inotify_event ⟨1, IN_CLOSE_WRITE, 0, some "a.txt"⟩ "/tmp" "ls -l"
      = .dispatch "ls -l /tmp/a.txt" := by
  refine ⟨by decide, by decide, by decide, by decide⟩

/-- C6 (amended): the wait loop blocks until the child terminates and
reports `Exited(code)` on normal exit (a nonzero code such as 2 is
reported, not fatal, and the event loop proceeds) and
`Signaled(signal)` on death by signal; but a `waitpid` failure —
including interruption, since the code exits on any `-1` return without
looking at `errno` — terminates the whole program with
`exit(EXIT_FAILURE)` instead of retrying. -/
theorem C6_wait_reports_or_fatal :
    (∀ (e : Nat) (rest : List WaitpidResult), waitLoop (.err e :: rest) = .fatalExit) ∧
    (∀ (c : Nat) (rest : List WaitpidResult),
      waitLoop (.ok (.exited c) :: rest) = .reported (.exited c)) ∧
    (∀ (s : Nat) (rest : List WaitpidResult),
      waitLoop (.ok (.signaled s) :: rest) = .reported (.signaled s)) ∧
    waitLoop [.ok (.exited 2)] = .reported (.exited 2) :=
  ⟨fun _ _ => rfl, fun _ _ => rfl, fun _ _ => rfl, rfl⟩

/-- C6 counterexample: a `waitpid` call interrupted by a signal (`-1`
with `errno = EINTR`) makes the parent exit fatally; the wait is not
retried, even though the child would have exited normally on the next
call. -/
theorem C6_eintr_wait_fatal_cex :
    waitLoop [.err EINTR, .ok (.exited 0)] = .fatalExit ∧
    (WaitOutcome.fatalExit ≠ .reported (.exited 0)) :=
  ⟨rfl, by decide⟩

/-- C7: a blocking read interrupted by a signal (`-1` with
`errno = EINTR`) is retried transparently: any number of consecutive
interruptions leaves the processing of the remaining trace unchanged,
every successfully read batch is processed (prepended to the processed
batches, none lost), and in particular a batch arriving after two
interruptions is processed normally with no fatal exit. -/
theorem C7_read_eintr_retried :
    (∀ (k : Nat) (rest : List ReadResult),
      readLoop (List.replicate k (.err EINTR) ++ rest) = readLoop rest) ∧
    (∀ (evs : List InotifyEvent) (rest : List ReadResult),
      readLoop (.ok evs :: rest) = (readLoop rest).map (fun bs => evs :: bs)) ∧
    (∀ evs : List InotifyEvent,
      readLoop [.err EINTR, .err EINTR, .ok evs] = some [evs]) := by
  refine ⟨?_, ?_, ?_⟩
  · intro k rest
    induction k with
    | zero => rfl
    | succ k ih => simpa [List.replicate_succ, readLoop] using ih
  · intro evs rest
    cases h : readLoop rest <;> simp [readLoop, h]
  · intro evs
    rfl

/-- C9: an event whose name is absent (`i->len == 0`, a directory-level
event about the watched path itself) is never dispatched, whatever the
mask, in both variants. -/
theorem C9_no_name_ignored (i : InotifyEvent) (d c : String) (hn : i.name = none) :
    show_inotify_event i d c = .ignore ∧ show_inotify_event_v2 i d c = .ignore := by
  constructor <;> simp [show_inotify_event, show_inotify_event_v2, hn]

/-- C9 witness: a nameless event with mask `IN_CLOSE_WRITE` is ignored
by both variants. -/
theorem C9_no_name_ignored_witness :
    show_inotify_event ⟨1, IN_CLOSE_WRITE, 0, none⟩ "/tmp" "ls -l" = .ignore ∧
    show_inotify_event_v2 ⟨1, IN_CLOSE_WRITE, 0, none⟩ "/tmp" "ls -l" = .ignore :=
  C9_no_name_ignored ⟨1, IN_CLOSE_WRITE, 0, none⟩ "/tmp" "ls -l" rfl

/-- C10: the dispatch decision never inspects `IN_ISDIR`: adding the
`IN_ISDIR` bit to any mask leaves the decision of both variants
unchanged, and an event with a qualifying mask and a present name is
dispatched even when its mask also contains `IN_ISDIR`. -/
theorem C10_isdir_not_inspected :
    (∀ (i : InotifyEvent) (d c : String),
      isDispatch (show_inotify_event ⟨i.wd, i.mask ||| IN_ISDIR, i.cookie, i.name⟩ d c)
        = isDispatch (show_inotify_event i d c) ∧
      isDispatch (show_inotify_event_v2 ⟨i.wd, i.mask ||| IN_ISDIR, i.cookie, i.name⟩ d c)
        = isDispatch (show_inotify_event_v2 i d c)) ∧
    (∀ (i : InotifyEvent) (d c n : String), i.name = some n →
      (maskHas i.mask IN_CLOSE_WRITE || maskHas i.mask IN_CLOSE_NOWRITE) = true →
      show_inotify_event ⟨i.wd, i.mask ||| IN_ISDIR, i.cookie, i.name⟩ d c
        = .dispatch (buildCmd c d n)) := by
  have hw : ∀ m : Nat, maskHas (m ||| IN_ISDIR) IN_CLOSE_WRITE = maskHas m IN_CLOSE_WRITE :=
    fun m => maskHas_lor_of_land_zero m IN_ISDIR IN_CLOSE_WRITE (by decide)
  have hnw : ∀ m : Nat,
      maskHas (m ||| IN_ISDIR) IN_CLOSE_NOWRITE = maskHas m IN_CLOSE_NOWRITE :=
    fun m => maskHas_lor_of_land_zero m IN_ISDIR IN_CLOSE_NOWRITE (by decide)
  constructor
  · intro i d c
    constructor <;>
      simp [show_inotify_event, show_inotify_event_v2, hw i.mask, hnw i.mask]
  · intro i d c n hn hm
    have hm2 : (maskHas (i.mask ||| IN_ISDIR) IN_CLOSE_WRITE
        || maskHas (i.mask ||| IN_ISDIR) IN_CLOSE_NOWRITE) = true := by
      rw [hw i.mask, hnw i.mask]
      exact hm
    simp [show_inotify_event, hn, hm2]

/-- C10 witness: an `IN_CLOSE_WRITE` event that also carries `IN_ISDIR`
(a subdirectory closed after write) is dispatched exactly as without
the flag. -/
theorem C10_isdir_not_inspected_witness :
    isDispatch (show_inotify_event ⟨1, IN_CLOSE_WRITE ||| IN_ISDIR, 0, some "a.txt"⟩
        "/tmp" "ls -l")
      = isDispatch (show_inotify_event ⟨1, IN_CLOSE_WRITE, 0, some "a.txt"⟩ "/tmp" "ls -l") ∧
    show_inotify_event ⟨1, IN_CLOSE_WRITE ||| IN_ISDIR, 0, some "a.txt"⟩ "/tmp" "ls -l"
      = .dispatch (buildCmd "ls -l" "/tmp" "a.txt") :=
  ⟨(C10_isdir_not_inspected.1 ⟨1, IN_CLOSE_WRITE, 0, some "a.txt"⟩ "/tmp" "ls -l").1,
   C10_isdir_not_inspected.2 ⟨1, IN_CLOSE_WRITE, 0, some "a.txt"⟩ "/tmp" "ls -l" "a.txt"
     rfl (by decide)⟩

/-- C8: for every path registered in order at startup, looking up the
watch descriptor the channel returned for it recovers that path,
provided the channel hands equal descriptors only to registrations of
the same path (which inotify guarantees: one descriptor per path, the
same descriptor when the same path is registered again). -/
theorem C8_lookup_registered (dirs : List String) (h : Nat → Int)
    (hcons : ∀ i, i < dirs.length → ∀ j, j < dirs.length →
      h i = h j → dirs.get? i = dirs.get? j)
    (i : Nat) (hi : i < dirs.length) :
    lookupDir dirs h (h i) = dirs.get? i := by
  have hmem : h i ∈ wdNames h dirs.length := by
    unfold wdNames
    exact List.mem_map.mpr ⟨i, List.mem_range.mpr hi, rfl⟩
  obtain ⟨j, h1, h2, h3⟩ := findDirPosAux_mem (wdNames h dirs.length) (h i) 0 hmem
  have hlenw : (wdNames h dirs.length).length = dirs.length := by simp [wdNames]
  have hj : j < dirs.length := hlenw ▸ h2
  have hhj : h j = h i := by
    have hget : (wdNames h dirs.length).get? j = some (h j) := by
      rw [show wdNames h dirs.length = (List.range dirs.length).map h from rfl,
        List.get?_map, List.get?_range hj]
      rfl
    rw [hget] at h3
    exact Option.some.inj h3
  unfold lookupDir
  rw [h1]
  simpa using hcons j hj i hi hhj

/-- C8 witness: registering `/tmp` (descriptor 1) then `/var/spool`
(descriptor 2), each descriptor resolves to its own path, and a batch
holding one event per descriptor resolves correctly in either arrival
order. -/
theorem C8_lookup_registered_witness :
    lookupDir ["/tmp", "/var/spool"] (fun j => (j : Int) + 1) 1 = some "/tmp" ∧
    lookupDir ["/tmp", "/var/spool"] (fun j => (j : Int) + 1) 2 = some "/var/spool" ∧
    resolveBatch ["/tmp", "/var/spool"] (fun j => (j : Int) + 1)
        [⟨1, IN_CLOSE_WRITE, 0, some "a"⟩, ⟨2, IN_CLOSE_WRITE, 0, some "b"⟩]
      = [some "/tmp", some "/var/spool"] ∧
    resolveBatch ["/tmp", "/var/spool"] (fun j => (j : Int) + 1)
        [⟨2, IN_CLOSE_WRITE, 0, some "b"⟩, ⟨1, IN_CLOSE_WRITE, 0, some "a"⟩]
      = [some "/var/spool", some "/tmp"] := by
  have hcons : ∀ i, i < (["/tmp", "/var/spool"] : List String).length →
      ∀ j, j < (["/tmp", "/var/spool"] : List String).length →
      (fun j => (j : Int) + 1) i = (fun j => (j : Int) + 1) j →
      (["/tmp", "/var/spool"] : List String).get? i
        = (["/tmp", "/var/spool"] : List String).get? j := by decide
  refine ⟨?_, ?_, by decide, by decide⟩
  · exact C8_lookup_registered ["/tmp", "/var/spool"] (fun j => (j : Int) + 1) hcons
      0 (by decide)
  · exact C8_lookup_registered ["/tmp", "/var/spool"] (fun j => (j : Int) + 1) hcons
      1 (by decide)

/-- C2 (amended): command length is checked exactly once, at startup:
a missing command, or a template longer than `MAX_COMMAND_LEN`
(`PATH_MAX - NAME_MAX - 1`), terminates the process with exit code 1
before the loop starts.  The dispatcher itself performs no per-event
length check: an event with a qualifying mask and a present name always
spawns a child, whatever the length of the assembled command line. -/
theorem C2_length_checked_only_at_startup :
    (∀ (o : SetupOracle) (ds : List String) (c : String),
      MAX_COMMAND_LEN < c.length → mainSetup o ds (some c) = .exit 1) ∧
    (∀ (o : SetupOracle) (ds : List String), mainSetup o ds none = .exit 1) ∧
    (∀ (i : InotifyEvent) (d c n : String), i.name = some n →
      (maskHas i.mask IN_CLOSE_WRITE || maskHas i.mask IN_CLOSE_NOWRITE) = true →
      show_inotify_event i d c = .dispatch (buildCmd c d n)) := by
  refine ⟨?_, ?_, ?_⟩
  · intro o ds c hc
    unfold mainSetup
    split
    · rfl
    · simp [hc]
  · intro o ds
    unfold mainSetup
    split
    · rfl
    · rfl
  · intro i d c n hn hm
    simp [show_inotify_event, hn, hm]

/-- C2 witness: a 3841-character template is rejected fatally at
startup even though every external succeeds, and a qualifying event is
dispatched with the assembled command. -/
theorem C2_length_checked_only_at_startup_witness :
    mainSetup okOracle ["/tmp"] (some oversizedTemplate) = .exit 1 ∧
    mainSetup okOracle ["/tmp"] none = .exit 1 ∧
    show_inotify_event ⟨1, IN_CLOSE_WRITE, 0, some "a.txt"⟩ "/tmp" "ls -l"
      = .dispatch (buildCmd "ls -l" "/tmp" "a.txt") := by
  have hO : oversizedTemplate.length = 3841 := by
    show (List.replicate 3841 'x').length = 3841
    exact List.length_replicate 3841 'x'
  exact ⟨C2_length_checked_only_at_startup.1 okOracle ["/tmp"] oversizedTemplate
      (by rw [hO]; decide),
    C2_length_checked_only_at_startup.2.1 okOracle ["/tmp"],
    C2_length_checked_only_at_startup.2.2 ⟨1, IN_CLOSE_WRITE, 0, some "a.txt"⟩
      "/tmp" "ls -l" "a.txt" rfl (by decide)⟩

/-- C2 counterexample: a 3840-character template passes the startup
check; on an event in a 100-character directory with a 50-character
name the assembled command line is 3992 characters — beyond
`MAX_COMMAND_LEN` — yet the dispatcher does not skip the event: it
dispatches (spawns a child), with no `CommandTooLong` failure in the
code. -/
theorem C2_no_per_event_length_check_cex :
    longTemplate.length ≤ MAX_COMMAND_LEN ∧
    MAX_COMMAND_LEN < longTemplate.length + 1 + (dir100 ++ "/" ++ name50).length ∧
    show_inotify_event ⟨1, IN_CLOSE_WRITE, 0, some name50⟩ dir100 longTemplate
      = .dispatch (buildCmd longTemplate dir100 name50) ∧
    isDispatch (show_inotify_event ⟨1, IN_CLOSE_WRITE, 0, some name50⟩ dir100 longTemplate)
      = true := by
  have hT : longTemplate.length = 3840 := by
    show (List.replicate 3840 'x').length = 3840
    exact List.length_replicate 3840 'x'
  have hd : dir100.length = 100 := by
    show ('/' :: List.replicate 99 'd').length = 100
    simp
  have hn : name50.length = 50 := by
    show (List.replicate 50 'n').length = 50
    exact List.length_replicate 50 'n'
  refine ⟨by rw [hT]; decide, ?_, rfl, rfl⟩
  rw [String.length_append, String.length_append, hT, hd, hn]
  decide

/-- C5 (amended): every setup failure other than an empty watch list —
missing command, oversized command, failed `realloc`/`malloc`/`calloc`,
failed `realpath`, failed `inotify_init` (channel open), failed
`inotify_add_watch` (watch registration) — terminates the process with
exit code 1 before the read loop starts, and a fully successful setup
with a non-empty watch list reaches the loop; but with no watched path
the process exits with code 0 (`main` skips `monitor` and returns
`EXIT_SUCCESS`; `monitor` itself would call `exit(0)`), so exit code 0
is not reserved for orderly shutdown. -/
theorem C5_setup_exit_codes (o : SetupOracle) (ds : List String) (c : String) :
    (mainSetup o ds none = .exit 1) ∧
    (MAX_COMMAND_LEN < c.length → mainSetup o ds (some c) = .exit 1) ∧
    (ds ≠ [] → o.reallocOk = false → mainSetup o ds (some c) = .exit 1) ∧
    (ds ≠ [] → o.absDirsAllocOk = false → mainSetup o ds (some c) = .exit 1) ∧
    (ds ≠ [] → o.pathAllocOk = false → mainSetup o ds (some c) = .exit 1) ∧
    (∀ d ∈ ds, o.realpath d = none → mainSetup o ds (some c) = .exit 1) ∧
    (ds ≠ [] → o.wdNamesAllocOk = false → mainSetup o ds (some c) = .exit 1) ∧
    (ds ≠ [] → o.inotifyInitOk = false → mainSetup o ds (some c) = .exit 1) ∧
    (ds ≠ [] → (∀ p, o.addWatch p = none) → mainSetup o ds (some c) = .exit 1) ∧
    (c.length ≤ MAX_COMMAND_LEN → mainSetup o [] (some c) = .exit 0) ∧
    (ds ≠ [] → c.length ≤ MAX_COMMAND_LEN → o.reallocOk = true →
      o.absDirsAllocOk = true → o.pathAllocOk = true →
      (∀ d ∈ ds, (o.realpath d).isSome = true) → o.wdNamesAllocOk = true →
      o.inotifyInitOk = true → (∀ p, (o.addWatch p).isSome = true) →
      mainSetup o ds (some c) = .entersLoop) := by
  refine ⟨?_, ?_, ?_, ?_, ?_, ?_, ?_, ?_, ?_, ?_, ?_⟩
  · unfold mainSetup
    split
    · rfl
    · rfl
  · intro hc
    unfold mainSetup
    split
    · rfl
    · simp [hc]
  · intro hds hre
    simp [mainSetup, List.length_pos.mpr hds, hre]
  · intro hds habs
    cases hre : o.reallocOk with
    | false => simp [mainSetup, List.length_pos.mpr hds, hre]
    | true =>
      by_cases hc : MAX_COMMAND_LEN < c.length
      · simp [mainSetup, hc]
      · simp [mainSetup, List.length_pos.mpr hds, hre, hc, habs]
  · intro hds hpa
    rcases mainSetup_exit_or_monitor o ds c hds with h | ⟨l, hres, _, _⟩
    · exact h
    · rw [resolveAll_none_of_pathAlloc_false o ds hds hpa] at hres
      cases hres
  · intro d hd hr
    have hds : ds ≠ [] := List.ne_nil_of_mem hd
    rcases mainSetup_exit_or_monitor o ds c hds with h | ⟨l, hres, _, _⟩
    · exact h
    · rw [resolveAll_none_of_realpath_none o ds d hd hr] at hres
      cases hres
  · intro hds hwd
    rcases mainSetup_exit_or_monitor o ds c hds with h | ⟨l, _, _, heq⟩
    · exact h
    · rw [heq]
      exact monitorSetup_exit_one_of_wdNames_fail o l hwd
  · intro hds hino
    rcases mainSetup_exit_or_monitor o ds c hds with h | ⟨l, _, hlen, heq⟩
    · exact h
    · rw [heq]
      refine monitorSetup_exit_one_of_inotify_fail o l ?_ hino
      intro hnil
      exact hds (List.length_eq_zero.mp (by simp [hnil] at hlen; omega))
  · intro hds haw
    rcases mainSetup_exit_or_monitor o ds c hds with h | ⟨l, _, hlen, heq⟩
    · exact h
    · rw [heq]
      refine monitorSetup_exit_one_of_addWatch_fail o l ?_ haw
      intro hnil
      exact hds (List.length_eq_zero.mp (by simp [hnil] at hlen; omega))
  · intro hc
    simp [mainSetup, Nat.not_lt.mpr hc]
  · intro hds hc hre habs hpa hrp hwd hino haw
    obtain ⟨l, hres, hlen⟩ := resolveAll_eq_some o ds hpa hrp
    have heq : mainSetup o ds (some c) = monitorSetup o l := by
      simp [mainSetup, List.length_pos.mpr hds, hre, Nat.not_lt.mpr hc, habs, hres]
    rw [heq]
    refine monitorSetup_entersLoop o l ?_ hwd hino haw
    intro hnil
    exact hds (List.length_eq_zero.mp (by simp [hnil] at hlen; omega))

/-- An oracle on which only `inotify_init` fails. -/
def badInotifyOracle : SetupOracle :=
  ⟨true, true, true, fun s => some s, true, false, fun _ => some 1⟩

/-- An oracle on which only `inotify_add_watch` fails. -/
def badWatchOracle : SetupOracle :=
  ⟨true, true, true, fun s => some s, true, true, fun _ => none⟩

/-- C5 witness: concrete runs — missing command, failed channel open
and failed watch registration each exit 1; no watched path exits 0 even
with a valid command and all externals succeeding; a fully successful
setup reaches the loop. -/
theorem C5_setup_exit_codes_witness :
    mainSetup okOracle ["/tmp"] none = .exit 1 ∧
    mainSetup badInotifyOracle ["/tmp"] (some "ls -l") = .exit 1 ∧
    mainSetup badWatchOracle ["/tmp"] (some "ls -l") = .exit 1 ∧
    mainSetup okOracle [] (some "ls -l") = .exit 0 ∧
    mainSetup okOracle ["/tmp"] (some "ls -l") = .entersLoop := by
  refine ⟨(C5_setup_exit_codes okOracle ["/tmp"] "ls -l").1, ?_, ?_, ?_, ?_⟩
  · exact (C5_setup_exit_codes badInotifyOracle ["/tmp"]
      "ls -l").2.2.2.2.2.2.2.1 (by decide) rfl
  · exact (C5_setup_exit_codes badWatchOracle ["/tmp"]
      "ls -l").2.2.2.2.2.2.2.2.1 (by decide) (fun _ => rfl)
  · exact (C5_setup_exit_codes okOracle [] "ls -l").2.2.2.2.2.2.2.2.2.1 (by decide)
  · exact (C5_setup_exit_codes okOracle ["/tmp"] "ls -l").2.2.2.2.2.2.2.2.2.2
      (by decide) (by decide) rfl rfl rfl (by decide) rfl rfl (fun _ => rfl)

/-- C5 counterexample: with every external succeeding and a valid
command, a run with no watched path terminates with exit code 0 — not 1
— both through `main` (which skips `monitor` and returns
`EXIT_SUCCESS`) and through `monitor` itself (`exit(0)`). -/
theorem C5_no_paths_exit_zero_cex :
    mainSetup okOracle [] (some "ls -l") = .exit 0 ∧
    monitorSetup okOracle [] = .exit 0 ∧
    ExitOutcome.exit 0 ≠ ExitOutcome.exit 1 := by
  refine ⟨by decide, by decide, by decide⟩

end Filemon
